import Mathlib

/-
Verification of the fixed-order, resumable pipeline orchestrator
(`create_people_posters/orchestrator.py`).

The embedding models the state the orchestrator reads and writes:

* the checkpoint directory `config/.orch` as an association list `FS`
  from file name to marker metadata (`MarkerMeta`; the timestamp and the
  literal argv recorded by `write_marker` are abstracted, since no claim
  depends on their values — only on which marker files exist and whether
  they record a normal completion, an accepted skip, or a style list);
* the lock file as a boolean in `World`;
* the outside world (child-process exit codes, log files, the regex
  search primitive, environment flags) as an oracle record `OrchEnv`
  whose fields correspond one-to-one to the conditions the source tests.

Each definition is translated from the source; comments cite the source
line numbers of `orchestrator.py`.
-/

set_option maxRecDepth 8192

namespace Orch

/-- Metadata written by `write_marker` (orchestrator.py:544, 556, 569, 661).
`done` abstracts `{"at": ..., "argv": ...}`, `skipped` abstracts
`{"skipped": True, "at": ...}`, `styled` abstracts `{"at": ..., "styles": ...}`. -/
inductive MarkerMeta where
  | done : MarkerMeta
  | skipped : MarkerMeta
  | styled : List String → MarkerMeta
deriving DecidableEq, Repr

/-- The checkpoint directory: file name ↦ content, as an association list. -/
def FS : Type := List (String × MarkerMeta)

instance : DecidableEq FS := by
  unfold FS
  infer_instance

/-- Look up a file in the checkpoint directory. -/
def fsGet : FS → String → Option MarkerMeta
  | [], _ => none
  | (q, v) :: rest, p => if q = p then some v else fsGet rest p

/-- Remove a file (Path.unlink / the removal half of Path.replace). -/
def fsDelete : FS → String → FS
  | [], _ => []
  | (q, v) :: rest, p => if q = p then fsDelete rest p else (q, v) :: fsDelete rest p

/-- Create or overwrite a file (Path.write_text / the target half of Path.replace). -/
def fsPut (fs : FS) (p : String) (v : MarkerMeta) : FS :=
  (p, v) :: fsDelete fs p

/-- The temporary path used by `write_marker` (orchestrator.py:154):
`marker.with_suffix(marker.suffix + ".tmp")` appends `.tmp` to the file name. -/
def tmpName (marker : String) : String := marker ++ ".tmp"

/-- First half of `write_marker` (orchestrator.py:155): write the metadata
to the temporary path. A crash may occur after this and before the rename. -/
def write_marker_tmp (fs : FS) (marker : String) (meta : MarkerMeta) : FS :=
  fsPut fs (tmpName marker) meta

/-- Second half of `write_marker` (orchestrator.py:156): `tmp.replace(marker)`
renames the temporary file onto the marker path. -/
def write_marker_rename (fs : FS) (marker : String) : FS :=
  match fsGet fs (tmpName marker) with
  | some v => fsPut (fsDelete fs (tmpName marker)) marker v
  | none => fs

/-- `write_marker` (orchestrator.py:152-156): write temp, then rename. -/
def write_marker (fs : FS) (marker : String) (meta : MarkerMeta) : FS :=
  write_marker_rename (write_marker_tmp fs marker meta) marker

/-- `marker_exists` (orchestrator.py:174-175): `bool(marker and marker.exists())`. -/
def marker_exists (fs : FS) (marker : Option String) : Bool :=
  match marker with
  | none => false
  | some p => (fsGet fs p).isSome

/-- Loop body of `clear_from` (orchestrator.py:159-171): walk the key list,
set the flag at `from_key`, and delete `{k}.done.json` while the flag is set. -/
def clear_from_go (fs : FS) (keys : List String) (do_clear : Bool) (from_key : String) : FS :=
  match keys with
  | [] => fs
  | k :: rest =>
    let dc := do_clear || (k == from_key)
    let fs2 := if dc then fsDelete fs (k ++ ".done.json") else fs
    clear_from_go fs2 rest dc from_key

/-- `clear_from` (orchestrator.py:159-171). -/
def clear_from (fs : FS) (keys : List String) (from_key : String) : FS :=
  clear_from_go fs keys false from_key

/-- One entry of the step registry (orchestrator.py:305-322).
The `title` and the command `builder` closure are not carried here: the
builder's observable behaviour is modelled by `buildStep` below. -/
structure Step where
  key : String
  marker : Option String
  always_run : Bool
deriving DecidableEq, Repr

/-- The fixed, enforced step order (orchestrator.py:469-484). -/
def steps : List Step := [
  ⟨"ensure_repo", none, true⟩,
  ⟨"name_check", some "name_check.done.json", false⟩,
  ⟨"missing", some "missing.done.json", false⟩,
  ⟨"tmdb", some "tmdb.done.json", false⟩,
  ⟨"truncate", some "truncate.done.json", false⟩,
  ⟨"missing_dir", some "missing_dir.done.json", false⟩,
  ⟨"prep_dirs", some "prep_dirs.done.json", false⟩,
  ⟨"remove_bg", some "remove_bg.done.json", false⟩,
  ⟨"poster_ps1", some "poster_ps1.done.json", false⟩,
  ⟨"update", none, true⟩,
  ⟨"sync_images", some "sync_images.done.json", false⟩,
  ⟨"readme", some "readme.done.json", false⟩,
  ⟨"sync_md", some "sync_md.done.json", false⟩,
  ⟨"push", none, true⟩]

/-- The registry keys in order (`list(step_index.keys())`, orchestrator.py:486,507). -/
def stepKeys : List String := steps.map (fun s => s.key)

/-- State of a log file under `config/logs` when the orchestrator parses it. -/
inductive LogFile where
  | absent : LogFile
  | unreadable : LogFile
  | readable : String → LogFile
deriving DecidableEq, Repr

/-- The zero-signal regex literals of `parse_zero_from_log` (orchestrator.py:242-248). -/
def zero_patterns : List String := [
  "\\b0\\s+(?:items|people|names|downloads|moved|copied)\\b",
  "\\bno\\s+(?:items|people|names|downloads|changes|work)\\b",
  "\\bnothing\\s+(?:to\\s+do|moved|copied|processed)\\b",
  "\\bSummary:\\s*processed\\s*=\\s*0\\b",
  "\\bFiles processed:\\s*0\\b"]

/-- The nonzero-signal regex literals of `parse_zero_from_log` (orchestrator.py:249-254). -/
def nonzero_patterns : List String := [
  "\\b([1-9]\\d*)\\s+(?:items|people|names|downloads|moved|copied)\\b",
  "\\b(total|processed|moved|copied)\\s*:\\s*([1-9]\\d*)\\b",
  "\\bSummary:\\s*processed\\s*=\\s*([1-9]\\d*)\\b",
  "\\bFiles processed:\\s*([1-9]\\d*)\\b"]

/-- `parse_zero_from_log` (orchestrator.py:233-261). The regex primitive
`re.search` is an oracle parameter `search : pattern → text → matched`.
Missing file → none; read failure → none; any nonzero pattern match →
some false (checked first, so it wins); any zero pattern match → some
true; otherwise none. -/
def parse_zero_from_log (search : String → String → Bool) (log : LogFile) :
    Option Bool :=
  match log with
  | .absent => none
  | .unreadable => none
  | .readable text =>
    if nonzero_patterns.any (fun r => search r text) then some false
    else if zero_patterns.any (fun r => search r text) then some true
    else none

/-- Oracle record for everything the orchestrator observes about the outside
world during one run: child exit codes, per-style child exit codes, the
regex search primitive, the log files it parses, the file-count probes, and
the environment/configuration conditions its builders and post-checks test. -/
structure OrchEnv where
  rc : String → Nat
  styleRc : String → String → Nat
  search : String → String → Bool
  nameCheckLog : LogFile
  missingLog : LogFile
  prepDirsLog : LogFile
  tmdbCreated : Nat
  missingDirProcessed : Option Nat
  prepDirsChanged : Nat
  removeBgProcessed : Nat
  removeBgLogN : Option Nat
  syncCopied : Option Nat
  psAvailable : Bool
  logsDirValid : Bool
  tmdbKeySet : Bool
  repoValid : Bool
  repoHasCategory : Bool
  bgOutputDirKnown : Bool
  requirePowershell : Bool
  requireBgOutput : Bool
  continueIfEmpty : Bool

/-- Result of calling a step's builder (orchestrator.py:564-573):
a command to execute, an accepted skip (builder returned None), or a
fatal configuration exit with code 2 inside the builder. -/
inductive BuildResult where
  | cmd : BuildResult
  | skip : BuildResult
  | exit2 : BuildResult
deriving DecidableEq, Repr

/-- The observable behaviour of each step's builder closure
(orchestrator.py:375-441, 419-428). -/
def buildStep (env : OrchEnv) (key : String) : BuildResult :=
  if key = "ensure_repo" then .cmd
  else if key = "name_check" then (if env.logsDirValid then .cmd else .exit2)
  else if key = "missing" then (if env.logsDirValid then .cmd else .exit2)
  else if key = "tmdb" then (if env.tmdbKeySet then .cmd else .exit2)
  else if key = "truncate" then .cmd
  else if key = "missing_dir" then .cmd
  else if key = "prep_dirs" then .cmd
  else if key = "remove_bg" then
    (if env.requireBgOutput && !env.bgOutputDirKnown then .exit2 else .cmd)
  else if key = "poster_ps1" then
    (if env.psAvailable then .cmd
     else if env.requirePowershell then .exit2 else .skip)
  else if key = "update" then (if env.repoValid then .cmd else .exit2)
  else if key = "sync_images" then (if env.repoValid then .cmd else .exit2)
  else if key = "push" then (if env.repoValid then .cmd else .exit2)
  else .cmd

/-- Terminal result of the run loop. -/
inductive RunResult where
  | completed : RunResult
  | earlyZero : String → RunResult
  | failed : String → Nat → RunResult
  | configError : String → RunResult
deriving DecidableEq, Repr

/-- The post-step fail-fast checks (orchestrator.py:588-657), applied after a
step's child exited 0. `some (earlyZero _)` models `sys.exit(0)`,
`some (configError _)` models `sys.exit(2)`, `none` means fall through to the
checkpoint write. -/
def postCheck (env : OrchEnv) (key : String) : Option RunResult :=
  if key = "ensure_repo" then
    (if !env.repoValid then some (.configError key)
     else if !env.repoHasCategory then some (.configError key)
     else none)
  else if key = "name_check" then
    (if parse_zero_from_log env.search env.nameCheckLog = some true
     then some (.earlyZero key) else none)
  else if key = "missing" then
    (if parse_zero_from_log env.search env.missingLog = some true
     then some (.earlyZero key) else none)
  else if key = "tmdb" then
    (if env.tmdbCreated = 0 then some (.earlyZero key) else none)
  else if key = "missing_dir" then
    (if env.missingDirProcessed = some 0 then some (.earlyZero key) else none)
  else if key = "prep_dirs" then
    (if env.prepDirsChanged = 0 ∧
        parse_zero_from_log env.search env.prepDirsLog = some true
     then some (.earlyZero key) else none)
  else if key = "remove_bg" then
    (if env.requireBgOutput && !env.bgOutputDirKnown then some (.configError key)
     else if env.removeBgProcessed = 0 ∧ env.continueIfEmpty = false ∧
          (env.removeBgLogN = none ∨ env.removeBgLogN = some 0)
     then some (.earlyZero key) else none)
  else if key = "sync_images" then
    (if env.syncCopied = some 0 then some (.earlyZero key) else none)
  else none

/-- One subprocess spawn: a whole-step command or a per-style command. -/
inductive Exec where
  | step : String → Exec
  | styled : String → String → Exec
deriving DecidableEq, Repr

/-- The per-style loop of the `readme` / `sync_md` branches
(orchestrator.py:534-557). Each per-style builder first calls
`_require_repo_or_die` (exit 2 when the repo root is unset/invalid); a
nonzero per-style exit code aborts with `sys.exit(rc)`. Returns the spawned
commands in order and the terminal result, if any. -/
def runStylesLoop (env : OrchEnv) (key : String) :
    List String → List Exec × Option RunResult
  | [] => ([], none)
  | st :: rest =>
    if !env.repoValid then ([], some (.configError key))
    else
      let rc := env.styleRc key st
      if rc ≠ 0 then ([.styled key st], some (.failed key rc))
      else
        let (es, r) := runStylesLoop env key rest
        (.styled key st :: es, r)

/-- Execute one step of the run loop (orchestrator.py:530-661): the
`readme`/`sync_md` multi-style branches, the builder call (None ⇒ accepted
skip for `poster_ps1` only, recorded as a skipped checkpoint; any other
None ⇒ exit 2), the child run, the post-step checks, and the checkpoint
write (only for marker-carrying, non-always_run steps). Returns the updated
checkpoint directory, the spawned commands, and `some r` when the run
terminates at this step. -/
def execStep (env : OrchEnv) (styles : List String) (fs : FS) (s : Step) :
    FS × List Exec × Option RunResult :=
  if s.key = "readme" then
    let t := runStylesLoop env "readme" styles
    match t.2 with
    | some r => (fs, t.1, some r)
    | none => (write_marker fs "readme.done.json" (.styled styles), t.1, none)
  else if s.key = "sync_md" then
    let t := runStylesLoop env "sync_md" styles
    match t.2 with
    | some r => (fs, t.1, some r)
    | none => (write_marker fs "sync_md.done.json" (.styled styles), t.1, none)
  else
    match buildStep env s.key with
    | .exit2 => (fs, [], some (.configError s.key))
    | .skip =>
      if s.key = "poster_ps1" then
        match s.marker with
        | some m => (write_marker fs m .skipped, [], none)
        | none => (fs, [], none)
      else (fs, [], some (.configError s.key))
    | .cmd =>
      let rc := env.rc s.key
      if rc ≠ 0 then (fs, [.step s.key], some (.failed s.key rc))
      else
        match postCheck env s.key with
        | some r => (fs, [.step s.key], some r)
        | none =>
          match s.marker with
          | some m =>
            if s.always_run then (fs, [.step s.key], none)
            else (write_marker fs m .done, [.step s.key], none)
          | none => (fs, [.step s.key], none)

/-- The run loop over `steps[start_i:]` (orchestrator.py:530-663). -/
def runSteps (env : OrchEnv) (styles : List String) :
    List Step → FS → List Exec → FS × List Exec × RunResult
  | [], fs, tr => (fs, tr, .completed)
  | s :: rest, fs, tr =>
    let t := execStep env styles fs s
    match t.2.2 with
    | none => runSteps env styles rest t.1 (tr ++ t.2.1)
    | some r => (t.1, tr ++ t.2.1, r)

/-- The CLI flags and style-related environment variables of one invocation
(orchestrator.py:329-346, 352-359). `stylesEnv` is `os.getenv("ORCH_STYLES",
"")` (so the empty string means unset); `styleEnv` is `ORCH_STYLE`. -/
structure Invocation where
  listFlag : Bool
  force : Bool
  from_key : Option String
  redo : Option String
  stylesArg : Option String
  styleArg : Option String
  stylesEnv : String
  styleEnv : Option String
deriving DecidableEq, Repr

/-- Drop leading whitespace characters (half of Python `str.strip()`). -/
def dropLeading : List Char → List Char
  | [] => []
  | c :: rest => if c.isWhitespace then dropLeading rest else c :: rest

/-- Python `str.strip()`: remove leading and trailing whitespace. -/
def pyStrip (s : String) : String :=
  ⟨(dropLeading ((dropLeading s.data).reverse)).reverse⟩

/-- Splitter for Python `str.split(",")`: split at every comma, keeping
empty pieces (`",".split(",") == ["", ""]`, `"".split(",") == [""]`). -/
def splitCommaGo : List Char → List Char → List String
  | [], acc => [⟨acc.reverse⟩]
  | c :: rest, acc =>
    if c = ',' then ⟨acc.reverse⟩ :: splitCommaGo rest []
    else splitCommaGo rest (c :: acc)

/-- Python `v.split(",")`. -/
def splitComma (v : String) : List String := splitCommaGo v.data []

/-- Split a comma list of styles: `[s.strip() for s in v.split(",") if s.strip()]`
(orchestrator.py:355,357). -/
def splitStyles (v : String) : List String :=
  ((splitComma v).map pyStrip).filter (fun s => s ≠ "")

/-- Python truthiness of an optional string argument. -/
def truthy (o : Option String) : Bool :=
  match o with
  | none => false
  | some s => s ≠ ""

/-- `default_style = args.style or os.getenv("ORCH_STYLE", "transparent")`
(orchestrator.py:352). -/
def default_style (a : Invocation) : String :=
  if truthy a.styleArg then a.styleArg.getD ""
  else a.styleEnv.getD "transparent"

/-- Style resolution (orchestrator.py:353-359): `if args.styles: ... elif
styles_env: ... else: [default_style]`, where the branch conditions are the
truthiness of the raw strings, not of the parsed lists. -/
def resolveStyles (a : Invocation) : List String :=
  if truthy a.stylesArg then splitStyles (a.stylesArg.getD "")
  else if a.stylesEnv ≠ "" then splitStyles a.stylesEnv
  else [default_style a]

/-- The scan for the default start index (orchestrator.py:519-523):
the first step that is `always_run` or lacks a checkpoint. -/
def computeStartAux (fs : FS) : List Step → Nat → Option Nat
  | [], _ => none
  | s :: rest, i =>
    if s.always_run || !marker_exists fs s.marker then some i
    else computeStartAux fs rest (i + 1)

/-- Default start index; `start_i` stays 0 when the scan finds nothing
(orchestrator.py:510). -/
def computeStart (fs : FS) : Nat :=
  (computeStartAux fs steps 0).getD 0

/-- Index of a key in the registry (`step_index`, orchestrator.py:486). -/
def idxOf : List String → String → Nat → Option Nat
  | [], _, _ => none
  | x :: rest, k, i => if x = k then some i else idxOf rest k (i + 1)

/-- The `--redo` phase (orchestrator.py:502-507): unknown key ⇒ exit 2
(`none`), otherwise clear checkpoints from the key onward. Runs before the
lock is acquired. -/
def redoPhase (a : Invocation) (fs : FS) : Option FS :=
  match a.redo with
  | none => some fs
  | some k => if k ∈ stepKeys then some (clear_from fs stepKeys k) else none

/-- Start-index resolution (orchestrator.py:509-523): `--force` wins, then
`--from` (unknown key ⇒ exit 2, `none`), else the default resume scan. -/
def startPhase (a : Invocation) (fs : FS) : Option Nat :=
  if a.force then some 0
  else
    match a.from_key with
    | some k => idxOf stepKeys k 0
    | none => some (computeStart fs)

/-- Mutable world state shared between invocations: the checkpoint
directory and whether the lock file exists. -/
structure World where
  markers : FS
  lock : Bool
deriving DecidableEq

/-- How an invocation terminated. -/
inductive Outcome where
  | listed : Outcome
  | usageError : Outcome
  | lockBlocked : Outcome
  | ran : RunResult → Outcome
deriving DecidableEq, Repr

/-- The observable result of one invocation: final world state, the
subprocesses spawned in order, the termination kind, and (for `--list`)
the printed statuses and next-step key. -/
structure MainResult where
  markers : FS
  lock : Bool
  trace : List Exec
  outcome : Outcome
  statuses : List (String × String)
  next : Option String
deriving DecidableEq

/-- Process exit code of a run-loop result (orchestrator.py:541,554,580,604,...). -/
def exitCode : RunResult → Nat
  | .completed => 0
  | .earlyZero _ => 0
  | .failed _ rc => rc
  | .configError _ => 2

/-- Process exit code of a whole invocation (`--list` returns normally;
unknown `--redo`/`--from` keys exit 2; lock contention exits 3,
orchestrator.py:202). -/
def mainExit : Outcome → Nat
  | .listed => 0
  | .usageError => 2
  | .lockBlocked => 3
  | .ran r => exitCode r

/-- `main` (orchestrator.py:325-665) at the granularity of the claims:
the `--list` branch (489-499) returns before redo handling and lock
acquisition; `--redo` clearing (502-507) runs before `acquire_lock` (526);
an existing lock exits 3 (199-202); otherwise the lock is created, the run
loop executes `steps[start_i:]`, and the lock is released on every exit
path of the `try`/`finally` (528-665). -/
def orchestrate (env : OrchEnv) (a : Invocation) (w : World) : MainResult :=
  if a.listFlag then
    { markers := w.markers, lock := w.lock, trace := [], outcome := .listed,
      statuses := steps.map (fun s =>
        (s.key,
         if s.always_run then "ALWAYS"
         else if marker_exists w.markers s.marker then "DONE" else "PENDING")),
      next := (steps.find? (fun s =>
        s.always_run || !marker_exists w.markers s.marker)).map (fun s => s.key) }
  else
    match redoPhase a w.markers with
    | none =>
      { markers := w.markers, lock := w.lock, trace := [],
        outcome := .usageError, statuses := [], next := none }
    | some fs1 =>
      match startPhase a fs1 with
      | none =>
        { markers := fs1, lock := w.lock, trace := [],
          outcome := .usageError, statuses := [], next := none }
      | some start_i =>
        if w.lock then
          { markers := fs1, lock := true, trace := [],
            outcome := .lockBlocked, statuses := [], next := none }
        else
          let t := runSteps env (resolveStyles a) (steps.drop start_i) fs1 []
          { markers := t.1, lock := false, trace := t.2.1,
            outcome := .ran t.2.2, statuses := [], next := none }

/-- The `name_check` registry entry (orchestrator.py:471). -/
def nameCheckStep : Step := ⟨"name_check", some "name_check.done.json", false⟩

/-- The `missing` registry entry (orchestrator.py:472). -/
def missingStep : Step := ⟨"missing", some "missing.done.json", false⟩

/-- The `readme` registry entry (orchestrator.py:481). -/
def readmeStep : Step := ⟨"readme", some "readme.done.json", false⟩

/-- The `sync_md` registry entry (orchestrator.py:482). -/
def syncMdStep : Step := ⟨"sync_md", some "sync_md.done.json", false⟩

theorem nameCheckStep_mem : nameCheckStep ∈ steps := by decide

theorem missingStep_mem : missingStep ∈ steps := by decide

theorem readmeStep_mem : readmeStep ∈ steps := by decide

theorem syncMdStep_mem : syncMdStep ∈ steps := by decide

/-- A benign environment: every child exits 0, no log signals zero work,
every probe sees nonzero output, all tools and configuration present. -/
def benv : OrchEnv :=
  { rc := fun _ => 0, styleRc := fun _ _ => 0, search := fun _ _ => false,
    nameCheckLog := .absent, missingLog := .absent, prepDirsLog := .absent,
    tmdbCreated := 1, missingDirProcessed := none, prepDirsChanged := 1,
    removeBgProcessed := 1, removeBgLogN := some 1, syncCopied := some 3,
    psAvailable := true, logsDirValid := true, tmdbKeySet := true,
    repoValid := true, repoHasCategory := true, bgOutputDirKnown := true,
    requirePowershell := false, requireBgOutput := false,
    continueIfEmpty := false }

/-- A plain invocation: no flags, no style overrides. -/
def pargs : Invocation :=
  { listFlag := false, force := false, from_key := none, redo := none,
    stylesArg := none, styleArg := none, stylesEnv := "", styleEnv := none }

/-- The checkpoint directory after a run in which every checkpointed step
completed: all ten markers exist. -/
def allDone : FS := [
  ("name_check.done.json", .done), ("missing.done.json", .done),
  ("tmdb.done.json", .done), ("truncate.done.json", .done),
  ("missing_dir.done.json", .done), ("prep_dirs.done.json", .done),
  ("remove_bg.done.json", .done), ("poster_ps1.done.json", .done),
  ("sync_images.done.json", .done),
  ("readme.done.json", .styled ["transparent"]),
  ("sync_md.done.json", .styled ["transparent"])]

/-- The spawn trace of a full pass over all fourteen steps with the default
single style `transparent`. -/
def fullTrace : List Exec := [
  .step "ensure_repo", .step "name_check", .step "missing", .step "tmdb",
  .step "truncate", .step "missing_dir", .step "prep_dirs", .step "remove_bg",
  .step "poster_ps1", .step "update", .step "sync_images",
  .styled "readme" "transparent", .styled "sync_md" "transparent",
  .step "push"]

/-- Which marker file names `clear_from_go` deletes: the characteristic
function of the deletion set of `clear_from` (orchestrator.py:159-171). -/
def clearsKey (keys : List String) (dc : Bool) (K x : String) : Bool :=
  match keys with
  | [] => false
  | k :: rest =>
    let dc2 := dc || (k == K)
    (dc2 && (x == k ++ ".done.json")) || clearsKey rest dc2 K x

theorem fsGet_fsDelete : ∀ (fs : FS) (p q : String),
    fsGet (fsDelete fs p) q = if q = p then none else fsGet fs q
  | [], p, q => by simp [fsDelete, fsGet]
  | (a, v) :: rest, p, q => by
    by_cases hap : a = p
    · subst hap
      show fsGet (if a = a then fsDelete rest a else (a, v) :: fsDelete rest a) q = _
      rw [if_pos rfl, fsGet_fsDelete rest a q]
      by_cases hq : q = a
      · rw [if_pos hq, if_pos hq]
      · rw [if_neg hq, if_neg hq]
        have haq : ¬a = q := fun h => hq h.symm
        simp only [fsGet, if_neg haq]
    · simp only [fsDelete, if_neg hap, fsGet]
      by_cases haq : a = q
      · have hqp : ¬q = p := fun h => hap (haq.trans h)
        rw [if_pos haq, if_neg hqp, if_pos haq]
      · rw [if_neg haq, if_neg haq, fsGet_fsDelete rest p q]

theorem fsGet_fsPut (fs : FS) (p : String) (v : MarkerMeta) (q : String) :
    fsGet (fsPut fs p v) q = if q = p then some v else fsGet fs q := by
  simp only [fsPut, fsGet]
  by_cases h : p = q
  · simp [h]
  · rw [if_neg h, if_neg (fun hh => h hh.symm), fsGet_fsDelete,
      if_neg (fun hh => h hh.symm)]

theorem tmpName_ne (m : String) : tmpName m ≠ m := by
  intro h
  have hl := congrArg String.length h
  simp [tmpName, String.length_append] at hl
  exact absurd hl (by decide)

/-- Claim C3: `write_marker` writes the metadata to the marker path plus a
`.tmp` suffix and then renames it onto the marker path; the state after a
crash between the temp write and the rename leaves the marker path exactly
as it was (in particular, absent if it was absent), because the resume
scan's `marker_exists` consults only the final marker path, never the temp
file; and a completed `write_marker` does make the marker exist. -/
theorem C3_atomic_checkpoint_write (fs : FS) (m : String) (meta : MarkerMeta) :
    write_marker fs m meta = write_marker_rename (write_marker_tmp fs m meta) m
    ∧ marker_exists (write_marker_tmp fs m meta) (some m) = marker_exists fs (some m)
    ∧ fsGet (write_marker_tmp fs m meta) m = fsGet fs m
    ∧ marker_exists (write_marker fs m meta) (some m) = true := by
  have hne : m ≠ tmpName m := (tmpName_ne m).symm
  refine ⟨rfl, ?_, ?_, ?_⟩
  · simp [marker_exists, write_marker_tmp, fsGet_fsPut, hne]
  · simp [write_marker_tmp, fsGet_fsPut, hne]
  · simp [marker_exists, write_marker, write_marker_rename, write_marker_tmp,
      fsGet_fsPut, fsGet_fsDelete, hne]

theorem clear_go_get (keys : List String) :
    ∀ (fs : FS) (dc : Bool) (K x : String),
      fsGet (clear_from_go fs keys dc K) x =
        if clearsKey keys dc K x then none else fsGet fs x := by
  induction keys with
  | nil => intro fs dc K x; simp [clear_from_go, clearsKey]
  | cons k rest ih =>
    intro fs dc K x
    simp only [clear_from_go, clearsKey]
    rw [ih]
    by_cases hkk : k = K
    · simp only [hkk, beq_self_eq_true, Bool.or_true]
      cases hck : clearsKey rest true K x <;>
        by_cases hx : x = K ++ ".done.json" <;>
          simp [hck, hx, fsGet_fsDelete]
    · have hkb : (k == K) = false := by simp [hkk]
      simp only [hkb, Bool.or_false]
      cases dc
      · cases hck : clearsKey rest false K x <;> simp [hck]
      · cases hck : clearsKey rest true K x <;>
          by_cases hx : x = k ++ ".done.json" <;>
            simp [hck, hx, fsGet_fsDelete]

/-- Claim C4: `clear_from` over the registry key list deletes the marker of
the requested key and of every later key, and leaves the marker of every
earlier key untouched. -/
theorem C4_redo_monotonicity (fs : FS) (k i : Fin stepKeys.length) :
    fsGet (clear_from fs stepKeys (stepKeys.get k)) (stepKeys.get i ++ ".done.json") =
      (if k ≤ i then none else fsGet fs (stepKeys.get i ++ ".done.json")) := by
  rw [clear_from, clear_go_get]
  have hc : ∀ k i : Fin stepKeys.length,
      clearsKey stepKeys false (stepKeys.get k) (stepKeys.get i ++ ".done.json") =
        decide (k ≤ i) := by decide
  rw [hc k i]
  by_cases hk : k ≤ i <;> simp [hk]

/-- Claim C1 (evaluation at the failing input): with every checkpoint marker
present and no flags, the default resume scan stops at index 0 — the first
registry entry `ensure_repo` is `always_run` — and the run loop, which never
consults checkpoints for the steps it iterates, re-executes all fourteen
steps, including the checkpointed `name_check` whose marker exists. The
claim expected only the `always_run` steps (`ensure_repo`, `update`,
`push`) to run again. -/
theorem C1_completed_run_reexecutes_all_steps :
    marker_exists allDone (some "name_check.done.json") = true
    ∧ computeStart allDone = 0
    ∧ (orchestrate benv pargs ⟨allDone, false⟩).outcome = .ran .completed
    ∧ (orchestrate benv pargs ⟨allDone, false⟩).trace = fullTrace
    ∧ Exec.step "name_check" ∈ (orchestrate benv pargs ⟨allDone, false⟩).trace := by
  decide

/-- Checkpoint files for the first three registry entries (the first entry
`ensure_repo` never writes one in a real run, but the file may be posited;
`marker_exists` ignores it because `ensure_repo.marker` is `None`). -/
def fs3 : FS := [
  ("ensure_repo.done.json", .done),
  ("name_check.done.json", .done),
  ("missing.done.json", .done)]

/-- Claim C8 (refutation): with checkpoints for the first three steps and no
flags, the resume scan stops at index 0 (`ensure_repo` is `always_run`), not
at index 3 (`tmdb`, the fourth registry entry), and earlier steps such as
`ensure_repo` and `name_check` are executed. -/
theorem C8_counterexample :
    computeStart fs3 = 0
    ∧ idxOf stepKeys "tmdb" 0 = some 3
    ∧ (orchestrate benv pargs ⟨fs3, false⟩).trace.head? = some (.step "ensure_repo")
    ∧ Exec.step "name_check" ∈ (orchestrate benv pargs ⟨fs3, false⟩).trace := by
  decide

/-- Claim C8 as amended: with checkpoints for the first three steps, a plain
invocation computes its start index as 0, because the first registry entry
is `always_run`, and then executes every step from the beginning. -/
theorem C8_amended_resumes_at_first_step :
    computeStart fs3 = 0
    ∧ (orchestrate benv pargs ⟨fs3, false⟩).trace = fullTrace
    ∧ (orchestrate benv pargs ⟨fs3, false⟩).outcome = .ran .completed := by
  decide

/-- A world in which another run's lock file exists and one checkpoint does. -/
def lockWorld : World := { markers := [("name_check.done.json", .done)], lock := true }

/-- An invocation given `--redo name_check`. -/
def redoArgs : Invocation := { pargs with redo := some "name_check" }

/-- Claim C2 (refutation): an invocation given `--redo name_check` while the
lock file exists still exits 3, but it deletes the `name_check` checkpoint
before the lock check, because `clear_from` (orchestrator.py:507) runs
before `acquire_lock` (orchestrator.py:526). -/
theorem C2_counterexample :
    (orchestrate benv redoArgs lockWorld).outcome = .lockBlocked
    ∧ mainExit .lockBlocked = 3
    ∧ fsGet lockWorld.markers "name_check.done.json" = some .done
    ∧ fsGet (orchestrate benv redoArgs lockWorld).markers "name_check.done.json" = none := by
  decide

/-- Claim C2 as amended: every non-`--list` invocation with valid keys that
starts while the lock file exists terminates with exit code 3, spawns no
subprocess, and leaves the checkpoints exactly as the `--redo` phase left
them — unchanged when no `--redo` was given, but with the checkpoints from
the redo key onward already deleted when it was. -/
theorem C2_lock_exit3_markers_from_redo_phase (env : OrchEnv) (a : Invocation)
    (w : World) (fs1 : FS) (i : Nat)
    (hl : w.lock = true) (hnl : a.listFlag = false)
    (h1 : redoPhase a w.markers = some fs1) (h2 : startPhase a fs1 = some i) :
    orchestrate env a w =
      { markers := fs1, lock := true, trace := [], outcome := .lockBlocked,
        statuses := [], next := none }
    ∧ mainExit (orchestrate env a w).outcome = 3
    ∧ (a.redo = none → fs1 = w.markers) := by
  have hmain : orchestrate env a w =
      { markers := fs1, lock := true, trace := [], outcome := .lockBlocked,
        statuses := [], next := none } := by
    simp only [orchestrate, hnl, h1, h2, hl]
    simp
  refine ⟨hmain, by rw [hmain]; rfl, ?_⟩
  intro hr
  simp only [redoPhase, hr] at h1
  exact (Option.some_injective _ h1).symm

/-- Witness for C2's amended theorem at a concrete input. -/
theorem C2_lock_witness :
    lockWorld.lock = true ∧ redoArgs.listFlag = false
    ∧ redoPhase redoArgs lockWorld.markers = some []
    ∧ startPhase redoArgs [] = some 0
    ∧ (orchestrate benv redoArgs lockWorld =
        { markers := [], lock := true, trace := [], outcome := .lockBlocked,
          statuses := [], next := none }
      ∧ mainExit (orchestrate benv redoArgs lockWorld).outcome = 3
      ∧ (redoArgs.redo = none → ([] : FS) = lockWorld.markers)) :=
  ⟨by decide, by decide, by decide, by decide,
    C2_lock_exit3_markers_from_redo_phase benv redoArgs lockWorld [] 0
      (by decide) (by decide) (by decide) (by decide)⟩

/-- The benign environment except that the `tmdb` child exits 7. -/
def env7 : OrchEnv := { benv with rc := fun k => if k = "tmdb" then 7 else 0 }

/-- Claim C7 (refutation of its resume clause): after a fresh run fails at
`tmdb` with exit code 7 — the run terminating with that code and the `tmdb`
checkpoint withheld, as the claim states — a subsequent plain invocation
does not resume at `tmdb` (index 3): its resume scan stops at index 0. -/
theorem C7_counterexample :
    (orchestrate env7 pargs ⟨[], false⟩).outcome = .ran (.failed "tmdb" 7)
    ∧ fsGet (orchestrate env7 pargs ⟨[], false⟩).markers "tmdb.done.json" = none
    ∧ fsGet (orchestrate env7 pargs ⟨[], false⟩).markers "name_check.done.json" = some .done
    ∧ idxOf stepKeys "tmdb" 0 = some 3
    ∧ computeStart (orchestrate env7 pargs ⟨[], false⟩).markers = 0
    ∧ (orchestrate env7 pargs ⟨[], false⟩).trace.head? = some (.step "ensure_repo") := by
  decide

/-- Claim C7 as amended: for every normal step whose builder yields a
command, a nonzero child exit code terminates the run with exactly that
code and leaves the checkpoint directory untouched (the checkpoint is
withheld); and a subsequent plain invocation computes its start index as 0
(the first registry entry is `always_run`), re-reaching the failed step by
running forward from the beginning rather than resuming at it. -/
theorem C7_checkpoint_withheld_on_failure (env : OrchEnv) (styles : List String)
    (fs : FS) (s : Step)
    (h1 : s.key ≠ "readme") (h2 : s.key ≠ "sync_md")
    (h3 : buildStep env s.key = .cmd) (h4 : env.rc s.key ≠ 0) :
    execStep env styles fs s = (fs, [.step s.key], some (.failed s.key (env.rc s.key)))
    ∧ exitCode (.failed s.key (env.rc s.key)) = env.rc s.key
    ∧ (∀ fs2 : FS, computeStart fs2 = 0) := by
  refine ⟨?_, rfl, ?_⟩
  · simp only [execStep, if_neg h1, if_neg h2, h3]
    simp [h4]
  · intro fs2
    simp [computeStart, computeStartAux, steps]

/-- Witness for C7's amended theorem at a concrete input. -/
theorem C7_withheld_witness :
    (("tmdb" : String) ≠ "readme") ∧ (("tmdb" : String) ≠ "sync_md")
    ∧ buildStep env7 "tmdb" = .cmd ∧ env7.rc "tmdb" ≠ 0
    ∧ (execStep env7 [] [] ⟨"tmdb", some "tmdb.done.json", false⟩ =
        ([], [.step "tmdb"], some (.failed "tmdb" (env7.rc "tmdb")))
      ∧ exitCode (.failed "tmdb" (env7.rc "tmdb")) = env7.rc "tmdb"
      ∧ (∀ fs2 : FS, computeStart fs2 = 0)) :=
  ⟨by decide, by decide, by decide, by decide,
    C7_checkpoint_withheld_on_failure env7 [] [] ⟨"tmdb", some "tmdb.done.json", false⟩
      (by decide) (by decide) (by decide) (by decide)⟩

/-- Claim C5: `parse_zero_from_log` yields `none` on an absent or unreadable
log, `some false` whenever any nonzero pattern matches (nonzero patterns are
checked first and win over zero patterns), `some true` only when no nonzero
pattern matches and some zero pattern does, and `none` when neither list
matches; and after a successful `name_check` or `missing` child, the run
loop terminates early — with exit code 0 — exactly when the parse of that
step's log is `some true`, writing the step's checkpoint and continuing
otherwise. -/
theorem C5_conservative_early_exit (env : OrchEnv) (styles : List String) (fs : FS)
    (h1 : env.rc "name_check" = 0) (h2 : env.rc "missing" = 0)
    (h3 : env.logsDirValid = true) :
    parse_zero_from_log env.search .absent = none
    ∧ parse_zero_from_log env.search .unreadable = none
    ∧ (∀ text : String, nonzero_patterns.any (fun r => env.search r text) = true →
        parse_zero_from_log env.search (.readable text) = some false)
    ∧ (∀ text : String, nonzero_patterns.any (fun r => env.search r text) = false →
        zero_patterns.any (fun r => env.search r text) = true →
        parse_zero_from_log env.search (.readable text) = some true)
    ∧ (∀ text : String, nonzero_patterns.any (fun r => env.search r text) = false →
        zero_patterns.any (fun r => env.search r text) = false →
        parse_zero_from_log env.search (.readable text) = none)
    ∧ execStep env styles fs nameCheckStep =
        (if parse_zero_from_log env.search env.nameCheckLog = some true
         then (fs, [.step "name_check"], some (.earlyZero "name_check"))
         else (write_marker fs "name_check.done.json" .done, [.step "name_check"], none))
    ∧ execStep env styles fs missingStep =
        (if parse_zero_from_log env.search env.missingLog = some true
         then (fs, [.step "missing"], some (.earlyZero "missing"))
         else (write_marker fs "missing.done.json" .done, [.step "missing"], none))
    ∧ exitCode (.earlyZero "name_check") = 0 := by
  refine ⟨rfl, rfl, ?_, ?_, ?_, ?_, ?_, rfl⟩
  · intro text hnz
    simp [parse_zero_from_log, hnz]
  · intro text hnz hz
    simp [parse_zero_from_log, hnz, hz]
  · intro text hnz hz
    simp [parse_zero_from_log, hnz, hz]
  · by_cases hp : parse_zero_from_log env.search env.nameCheckLog = some true <;>
      simp [execStep, buildStep, postCheck, nameCheckStep, h1, h3, hp]
  · by_cases hp : parse_zero_from_log env.search env.missingLog = some true <;>
      simp [execStep, buildStep, postCheck, missingStep, h2, h3, hp]

/-- Witness for C5 at a concrete environment. -/
theorem C5_witness :
    benv.rc "name_check" = 0 ∧ benv.rc "missing" = 0 ∧ benv.logsDirValid = true
    ∧ (parse_zero_from_log benv.search .absent = none
      ∧ parse_zero_from_log benv.search .unreadable = none
      ∧ (∀ text : String, nonzero_patterns.any (fun r => benv.search r text) = true →
          parse_zero_from_log benv.search (.readable text) = some false)
      ∧ (∀ text : String, nonzero_patterns.any (fun r => benv.search r text) = false →
          zero_patterns.any (fun r => benv.search r text) = true →
          parse_zero_from_log benv.search (.readable text) = some true)
      ∧ (∀ text : String, nonzero_patterns.any (fun r => benv.search r text) = false →
          zero_patterns.any (fun r => benv.search r text) = false →
          parse_zero_from_log benv.search (.readable text) = none)
      ∧ execStep benv [] [] nameCheckStep =
          (if parse_zero_from_log benv.search benv.nameCheckLog = some true
           then ([], [.step "name_check"], some (.earlyZero "name_check"))
           else (write_marker [] "name_check.done.json" .done, [.step "name_check"], none))
      ∧ execStep benv [] [] missingStep =
          (if parse_zero_from_log benv.search benv.missingLog = some true
           then ([], [.step "missing"], some (.earlyZero "missing"))
           else (write_marker [] "missing.done.json" .done, [.step "missing"], none))
      ∧ exitCode (.earlyZero "name_check") = 0) :=
  ⟨rfl, rfl, rfl, C5_conservative_early_exit benv [] [] rfl rfl rfl⟩

theorem runStylesLoop_all_zero (env : OrchEnv) (key : String)
    (h : env.repoValid = true) :
    ∀ styles : List String, (∀ st ∈ styles, env.styleRc key st = 0) →
      runStylesLoop env key styles = (styles.map (Exec.styled key), none)
  | [], _ => by simp [runStylesLoop]
  | st :: rest, hall => by
    have h0 : env.styleRc key st = 0 := hall st (by simp)
    have ih := runStylesLoop_all_zero env key h rest (fun x hx => hall x (by simp [hx]))
    simp [runStylesLoop, h, h0, ih]

theorem runStylesLoop_first_fail (env : OrchEnv) (key : String)
    (h : env.repoValid = true) :
    ∀ (p : List String) (s : String) (rest : List String),
      (∀ x ∈ p, env.styleRc key x = 0) → env.styleRc key s ≠ 0 →
      runStylesLoop env key (p ++ s :: rest) =
        (p.map (Exec.styled key) ++ [.styled key s],
         some (.failed key (env.styleRc key s)))
  | [], s, rest, _, hs => by simp [runStylesLoop, h, hs]
  | x :: p, s, rest, hall, hs => by
    have h0 : env.styleRc key x = 0 := hall x (by simp)
    have ih := runStylesLoop_first_fail env key h p s rest
      (fun y hy => hall y (by simp [hy])) hs
    simp [runStylesLoop, h, h0, ih]

/-- Claim C6: for the `readme` and `sync_md` steps the per-style command is
invoked exactly once per configured style, in list order; the single
checkpoint is written, recording the style list, only when every per-style
invocation exits 0; and when the styles are a prefix of successes followed
by a failing style, exactly that prefix plus the failing style are invoked,
the run terminates with the failing style's exit code, and no checkpoint is
written. -/
theorem C6_multi_style_all_or_nothing (env : OrchEnv) (h : env.repoValid = true) :
    (∀ (styles : List String) (fs : FS),
      (∀ st ∈ styles, env.styleRc "readme" st = 0) →
      execStep env styles fs readmeStep =
        (write_marker fs "readme.done.json" (.styled styles),
         styles.map (Exec.styled "readme"), none))
    ∧ (∀ (p : List String) (s : String) (rest : List String) (fs : FS),
        (∀ x ∈ p, env.styleRc "readme" x = 0) → env.styleRc "readme" s ≠ 0 →
        execStep env (p ++ s :: rest) fs readmeStep =
          (fs, p.map (Exec.styled "readme") ++ [.styled "readme" s],
           some (.failed "readme" (env.styleRc "readme" s))))
    ∧ (∀ (styles : List String) (fs : FS),
      (∀ st ∈ styles, env.styleRc "sync_md" st = 0) →
      execStep env styles fs syncMdStep =
        (write_marker fs "sync_md.done.json" (.styled styles),
         styles.map (Exec.styled "sync_md"), none))
    ∧ (∀ (p : List String) (s : String) (rest : List String) (fs : FS),
        (∀ x ∈ p, env.styleRc "sync_md" x = 0) → env.styleRc "sync_md" s ≠ 0 →
        execStep env (p ++ s :: rest) fs syncMdStep =
          (fs, p.map (Exec.styled "sync_md") ++ [.styled "sync_md" s],
           some (.failed "sync_md" (env.styleRc "sync_md" s)))) := by
  refine ⟨?_, ?_, ?_, ?_⟩
  · intro styles fs hall
    simp [execStep, readmeStep, runStylesLoop_all_zero env "readme" h styles hall]
  · intro p s rest fs hall hs
    simp [execStep, readmeStep,
      runStylesLoop_first_fail env "readme" h p s rest hall hs]
  · intro styles fs hall
    simp [execStep, syncMdStep, runStylesLoop_all_zero env "sync_md" h styles hall]
  · intro p s rest fs hall hs
    simp [execStep, syncMdStep,
      runStylesLoop_first_fail env "sync_md" h p s rest hall hs]

/-- The benign environment except that per-style invocations for style `b`
exit 5. -/
def env6 : OrchEnv := { benv with styleRc := fun _ st => if st = "b" then 5 else 0 }

/-- Witness for C6 at the spec's scenario: styles `["a", "b"]` with `b`
failing — `a` then `b` are invoked once each and no checkpoint is written. -/
theorem C6_witness :
    env6.repoValid = true
    ∧ execStep env6 (["a"] ++ "b" :: []) [] readmeStep =
        ([], List.map (Exec.styled "readme") ["a"] ++ [.styled "readme" "b"],
         some (.failed "readme" (env6.styleRc "readme" "b"))) :=
  ⟨rfl, (C6_multi_style_all_or_nothing env6 rfl).2.1 ["a"] "b" [] []
    (by decide) (by decide)⟩

/-- Claim C9: a `--list` invocation changes no checkpoint file, does not
touch the lock, spawns no subprocess, and returns normally — even when
`--redo` or `--force` is also given, since the list branch returns before
redo handling and lock acquisition — printing each step's status (ALWAYS
for `always_run` steps, DONE when its checkpoint exists, PENDING otherwise)
and, as the next step, the key of the first step that is `always_run` or
lacks a checkpoint (always `ensure_repo`, the first registry entry). -/
theorem C9_list_nondestructive (env : OrchEnv) (a : Invocation) (w : World)
    (h : a.listFlag = true) :
    (orchestrate env a w).markers = w.markers
    ∧ (orchestrate env a w).lock = w.lock
    ∧ (orchestrate env a w).trace = []
    ∧ (orchestrate env a w).outcome = .listed
    ∧ (orchestrate env a w).statuses = steps.map (fun s =>
        (s.key,
         if s.always_run then "ALWAYS"
         else if marker_exists w.markers s.marker then "DONE" else "PENDING"))
    ∧ (orchestrate env a w).next = some "ensure_repo" := by
  have hf : List.find? (fun s => s.always_run || !marker_exists w.markers s.marker) steps
      = some ⟨"ensure_repo", none, true⟩ := rfl
  simp [orchestrate, h, hf]

/-- A `--list` invocation that also carries `--redo` and `--force`. -/
def a9 : Invocation := { pargs with listFlag := true, redo := some "name_check", force := true }

/-- A world with one checkpoint and the lock held, for the C9 witness. -/
def w9 : World := { markers := [("missing.done.json", .done)], lock := true }

/-- Witness for C9 at a concrete input. -/
theorem C9_witness :
    a9.listFlag = true
    ∧ ((orchestrate benv a9 w9).markers = w9.markers
      ∧ (orchestrate benv a9 w9).lock = w9.lock
      ∧ (orchestrate benv a9 w9).trace = []
      ∧ (orchestrate benv a9 w9).outcome = .listed
      ∧ (orchestrate benv a9 w9).statuses = steps.map (fun s =>
          (s.key,
           if s.always_run then "ALWAYS"
           else if marker_exists w9.markers s.marker then "DONE" else "PENDING"))
      ∧ (orchestrate benv a9 w9).next = some "ensure_repo") :=
  ⟨rfl, C9_list_nondestructive benv a9 w9 rfl⟩

/-- An invocation whose `--styles` value is truthy but contains only blank
components. -/
def a10 : Invocation := { pargs with stylesArg := some "," }

/-- Claim C10 (refutation): `--styles ","` is a truthy string, so the
`args.styles` branch is taken, and after strip-and-filter the resolved
style list is empty; the `readme` step then invokes zero per-style commands
yet still writes its checkpoint, recording the empty style list. -/
theorem C10_counterexample :
    resolveStyles a10 = []
    ∧ execStep benv (resolveStyles a10) [] readmeStep =
        (write_marker [] "readme.done.json" (.styled []), [], none) := by
  decide

/-- Claim C10 as amended: the resolved style list is the singleton
`[default_style]` — hence non-empty — whenever neither `--styles` nor
`ORCH_STYLES` is a truthy string; a truthy value whose components are all
blank yields the empty list instead. -/
theorem C10_default_styles_singleton (a : Invocation)
    (h1 : truthy a.stylesArg = false) (h2 : a.stylesEnv = "") :
    resolveStyles a = [default_style a] ∧ resolveStyles a ≠ [] := by
  simp [resolveStyles, h1, h2]

/-- Witness for C10's amended theorem at a concrete input. -/
theorem C10_witness :
    truthy pargs.stylesArg = false ∧ pargs.stylesEnv = ""
    ∧ (resolveStyles pargs = [default_style pargs] ∧ resolveStyles pargs ≠ []) :=
  ⟨rfl, rfl, C10_default_styles_singleton pargs rfl rfl⟩

end Orch
